import Mathlib

/-!
Verification development for tumblr_backup.py (lucible/tumblr-utils).

This file gives a shallow embedding of the parts of tumblr_backup.py that the
checked properties are about: the API URL construction (get_api_url), the
rate-limit retry loop and the dashboard-endpoint discovery in
ApiParser.apiparse, the replay-mode page reconstruction (ApiParser.read_archive
plus the replay branch of apiparse), the per-batch filter loop _backup inside
TumblrBackup.backup together with the cursor update of the pagination loop,
and the index rebuild (Index.save_index / save_year / save_month driven by
Indices.build_index).

Machine integers are modelled as Int or Nat (Python integers are unbounded, so
no wrap-around modelling is needed).  Functions that raise exceptions return an
Option or a dedicated result constructor.  External effects (HTTP requests,
the filesystem existence check, the jq content filter) are passed in as
explicit function arguments.
-/

namespace TumblrUtils

open List (Perm)
open scoped List

/-! ### Stable sorting, as performed by the Python builtin sorted

Python sorted(key=k) is a stable sort; with reverse=True equal-key elements
also keep their original relative order.  insertionSort with the reflexive
key comparison places an earlier element in front of all equal-key later
elements, which reproduces exactly that behaviour. -/

/-- Descending comparison by an integer key (Python sorted with reverse=True). -/
def keyDescRel {α : Type} (key : α → Int) : α → α → Prop := fun a b => key b ≤ key a

/-- Ascending comparison by an integer key (Python sorted without reverse). -/
def keyAscRel {α : Type} (key : α → Int) : α → α → Prop := fun a b => key a ≤ key b

instance {α : Type} (key : α → Int) : DecidableRel (keyDescRel key) :=
  fun a b => Int.decLe (key b) (key a)

instance {α : Type} (key : α → Int) : DecidableRel (keyAscRel key) :=
  fun a b => Int.decLe (key a) (key b)

instance {α : Type} (key : α → Int) : IsTotal α (keyDescRel key) :=
  ⟨fun a b => le_total (key b) (key a)⟩

instance {α : Type} (key : α → Int) : IsTotal α (keyAscRel key) :=
  ⟨fun a b => le_total (key a) (key b)⟩

instance {α : Type} (key : α → Int) : IsTrans α (keyDescRel key) :=
  ⟨fun _ _ _ h1 h2 => le_trans h2 h1⟩

instance {α : Type} (key : α → Int) : IsTrans α (keyAscRel key) :=
  ⟨fun _ _ _ h1 h2 => le_trans h1 h2⟩

/-- The Python builtin sorted with an integer key function; rev is the
reverse=True flag.  A stable sort in both directions. -/
def pySorted {α : Type} (key : α → Int) (rev : Bool) (l : List α) : List α :=
  if rev then l.insertionSort (keyDescRel key) else l.insertionSort (keyAscRel key)

/-! ### get_api_url (tumblr_backup.py lines 260-270) -/

/-- Membership of a character in a string, the Python expression c in account,
computed over the character list so that it evaluates inside the kernel. -/
def strHasChar (s : String) (c : Char) : Bool := s.data.contains c

/-- get_api_url: returns (blog_name, api url); none models the ValueError
raised for invalid account names.  The function performs no network activity:
it is a pure string computation. -/
def get_api_url (likes : Bool) (account : String) : Option (String × String) :=
  if strHasChar account '/' || strHasChar account '\\' || account == "." || account == ".." then
    none
  else
    let blogName := if strHasChar account '.' then account else account ++ ".tumblr.com"
    some (blogName,
      "https://api.tumblr.com/v2/blog/" ++ blogName ++ "/" ++ (if likes then "likes" else "posts"))

/-! ### ApiParser.apiparse, live branch (tumblr_backup.py lines 332-414)

The JSON document returned by _get_resp is modelled by ApiDoc: its HTTP-level
status (doc meta status), the error objects of the body (each with an optional
integer code field) and an opaque payload identifying the carried posts. -/

/-- A parsed API response document, as seen by apiparse after _get_resp. -/
structure ApiDoc where
  status : Int
  errors : List (Option Int)
  payload : List Nat
deriving DecidableEq, Repr

/-- One HTTP request: base URL plus encoded parameters and headers. -/
structure ApiRequest where
  base : String
  params : List (String × String)
  headers : List (String × String)
deriving DecidableEq, Repr

/-- The rate-limit retry loop of apiparse (lines 374-383):

    sleep_dur = 30
    while True:
        doc = self._get_resp(base, params, headers)
        if doc is None: return None
        status = doc.meta.status
        if status != 429: break
        time.sleep(sleep_dur); sleep_dur *= 2

getResp is the oracle giving the outcome of the n-th _get_resp attempt for a
fixed request (none models a _get_resp failure).  The loop is unbounded in the
source; here it is indexed by fuel, with the outer none meaning that the loop
is still running after that many iterations.  The result records the requests
issued, the sleep durations performed, and the final outcome: inner none for
the _get_resp-failed early return, some doc for the document the loop breaks
on. -/
def rateLimitLoop (getResp : ApiRequest → Nat → Option ApiDoc) (req : ApiRequest) :
    Nat → Nat → Nat → Option (List ApiRequest × List Nat × Option ApiDoc)
  | 0, _, _ => none
  | fuel + 1, attempt, sleepDur =>
    match getResp req attempt with
    | none => some ([req], [], none)
    | some doc =>
      if doc.status = 429 then
        match rateLimitLoop getResp req fuel (attempt + 1) (sleepDur * 2) with
        | none => none
        | some (reqs, sleeps, res) => some (req :: reqs, sleepDur :: sleeps, res)
      else some ([req], [], some doc)

/-- The effect of one processed (non-429) response document on the memoized
dashboard_only_blog field of ApiParser (lines 384-408).  The field is assigned
in exactly two places of the source, both guarded by it still being None:

* on a non-200 status: set to True when the status is 404, likes mode is off
  and the body carries exactly one error whose code is 4012;
* on a 200 status: set to False (first successful public API request). -/
def dashboardStep (likes : Bool) (st : Option Bool) (doc : ApiDoc) : Option Bool :=
  if doc.status ≠ 200 then
    if st = none ∧ doc.status = 404 ∧ likes = false then
      match doc.errors with
      | [some c] => if c = 4012 then some true else st
      | _ => st
    else st
  else
    match st with
    | some b => some b
    | none => some false

/-! ### ApiParser.read_archive and the replay branch of apiparse
(tumblr_backup.py lines 316-330 and 334-355) -/

/-- One archived per-post snapshot: the numeric file name (int of the json
file base name, which is the post id), the timestamp and liked_timestamp of
the stored post body, and an opaque rendering of the rest of the body. -/
structure ArchiveEntry where
  ident : Nat
  timestamp : Int
  liked_timestamp : Int
  body : String
deriving DecidableEq, Repr

/-- The key by which read_archive orders the saved responses:
liked_timestamp of the body in likes mode, the integer file name (the post
id) otherwise. -/
def archiveSortKey (likes : Bool) (e : ArchiveEntry) : Int :=
  if likes then e.liked_timestamp else (e.ident : Int)

/-- The effective timestamp used by the dropwhile in the replay branch:
liked_timestamp in likes mode, timestamp otherwise. -/
def ArchiveEntry.effts (likes : Bool) (e : ArchiveEntry) : Int :=
  if likes then e.liked_timestamp else e.timestamp

/-- read_archive: sort the saved snapshots descending by archiveSortKey and
remember them as prev_resps. -/
def read_archive (likes : Bool) (entries : List ArchiveEntry) : List ArchiveEntry :=
  pySorted (archiveSortKey likes) true entries

/-- The page reconstructed by the replay branch of apiparse. -/
structure ReplayPage where
  posts : List ArchiveEntry
  blogPosts : Nat
deriving DecidableEq, Repr

/-- Replay branch of apiparse (lines 334-355): starting from prev_resps (the
read_archive output), apply itertools.dropwhile on the effective timestamp
against before (when given), then itertools.islice(start, start + count).
The blog field carries posts = len(prev_resps). -/
def apiparse_replay (likes : Bool) (prevResps : List ArchiveEntry)
    (count start : Nat) (before : Option Int) : ReplayPage :=
  let posts := match before with
    | some b => prevResps.dropWhile (fun e => decide (b ≤ ArchiveEntry.effts likes e))
    | none => prevResps
  { posts := (posts.drop start).take count, blogPosts := prevResps.length }

/-- The replay fetch as the claim words it: the archived snapshots sorted
descending by the effective-timestamp key, entries with key greater or equal
to before dropped, then sliced from start taking count.  This definition
follows the words of the specification and is compared against the code-side
composition of read_archive and apiparse_replay. -/
def claimReplayFetch (likes : Bool) (entries : List ArchiveEntry)
    (count start : Nat) (before : Option Int) : List ArchiveEntry :=
  let sortedE := pySorted (ArchiveEntry.effts likes) true entries
  let dropped := match before with
    | some b => sortedE.dropWhile (fun e => decide (b ≤ ArchiveEntry.effts likes e))
    | none => sortedE
  (dropped.drop start).take count

/-- The replay fetch with the sort key the code actually uses (the amended
claim): sorted descending by liked_timestamp in likes mode and by the post id
otherwise, then the dropwhile on the effective timestamp, then the slice. -/
def amendedReplayFetch (likes : Bool) (entries : List ArchiveEntry)
    (count start : Nat) (before : Option Int) : List ArchiveEntry :=
  let sortedE := pySorted (archiveSortKey likes) true entries
  let dropped := match before with
    | some b => sortedE.dropWhile (fun e => decide (b ≤ ArchiveEntry.effts likes e))
    | none => sortedE
  (dropped.drop start).take count

/-! ### TumblrBackup.backup._backup (tumblr_backup.py lines 860-923)

One remote post, restricted to the fields the filter loop looks at. -/

/-- A post as the filter loop sees it.  trail is none when the post body has
no trail field, some l when it does; each list element records whether that
trail element carries the is_current_item marker. -/
structure TPost where
  id : Nat
  timestamp : Int
  liked_timestamp : Int
  typ : String
  tags_lower : List String
  reblogged_from : Bool
  trail : Option (List Bool)
deriving DecidableEq, Repr

/-- post.date: liked_timestamp in likes mode, timestamp otherwise
(TumblrPost.__init__, line 1009). -/
def TPost.date (likes : Bool) (p : TPost) : Int :=
  if likes then p.liked_timestamp else p.timestamp

/-- The sort key of _backup (line 861) and the incremental-stop key
(line 870): liked_timestamp in likes mode, the integer post id otherwise. -/
def sortKey (likes : Bool) (p : TPost) : Int :=
  if likes then p.liked_timestamp else (p.id : Int)

/-- The reblog classification of _backup (lines 888-895):

    post_is_reblog = False
    if reblogged_from_name in p or reblogged_root_name in p:
        if trail in p and not p.trail: post_is_reblog = True
        elif trail in p and is_current_item not in p.trail[-1]: post_is_reblog = True
    elif trail in p and p.trail and is_current_item not in p.trail[-1]:
        post_is_reblog = True
-/
def post_is_reblog (p : TPost) : Bool :=
  if p.reblogged_from then
    match p.trail with
    | none => false
    | some [] => true
    | some l =>
      match l.getLast? with
      | some marker => !marker
      | none => false
  else
    match p.trail with
    | none => false
    | some l =>
      match l.getLast? with
      | some marker => !marker
      | none => false

/-- One entry of the options.request mapping: a post type together with its
allowed tag set (tagAny records whether TAG_ANY is in the set). -/
structure ReqEntry where
  typ : String
  tagAny : Bool
  tags : List String
deriving DecidableEq, Repr

/-- The type/tag allow-list test (lines 882-887): skip when the type is not in
the request mapping, or when neither TAG_ANY nor any lowercased post tag is in
its allowed tag set. -/
def requestSkip (request : Option (List ReqEntry)) (p : TPost) : Bool :=
  match request with
  | none => false
  | some reqs =>
    match reqs.find? (fun e => e.typ == p.typ) with
    | none => true
    | some e => !(e.tagAny || p.tags_lower.any (fun t => e.tags.contains t))

/-- The backup options the filter loop reads.  count models options.count,
which in Python is falsy when None or 0. -/
structure BackupOptions where
  likes : Bool
  ident_max : Option Int
  period : Option (Int × Int)
  request : Option (List ReqEntry)
  no_reblog : Bool
  only_reblog : Bool
  count : Option Nat
deriving Repr

/-- Decision taken by the filter chain for a single post, in source order. -/
inductive StepDecision where
  | stopIncremental
  | fatalPeriod
  | skipPeriod
  | stopPeriod
  | skip
  | submit
deriving DecidableEq, Repr

/-- Tests 3 to 6 of the chain: type/tag allow-list, reblog
inclusion/exclusion, the external content filter (options.filter, passed as
filt), and the no-clobber existence test (os.path.exists passed as pexists,
with the no_post_clobber option). -/
def postFilters (o : BackupOptions) (filt : Option (TPost → Bool))
    (pexists : TPost → Bool) (noPostClobber : Bool) (p : TPost) : StepDecision :=
  if requestSkip o.request p then .skip
  else if o.no_reblog && post_is_reblog p then .skip
  else if o.only_reblog && !post_is_reblog p then .skip
  else if (match filt with | some f => !f p | none => false) then .skip
  else if pexists p && noPostClobber then .skip
  else .submit

/-- The whole per-post decision of the _backup loop body: incremental-stop
test (lines 868-872), period-bounds test (lines 873-881), then the remaining
filters. -/
def postDecision (o : BackupOptions) (dash : Bool) (filt : Option (TPost → Bool))
    (pexists : TPost → Bool) (noPostClobber : Bool) (p : TPost) : StepDecision :=
  let identStop : Bool := match o.ident_max with
    | some m => decide (sortKey o.likes p ≤ m)
    | none => false
  if identStop then .stopIncremental
  else match o.period with
    | some (pstart, pstop) =>
      if TPost.date o.likes p > pstop then
        if dash then .skipPeriod else .fatalPeriod
      else if TPost.date o.likes p < pstart then .stopPeriod
      else postFilters o filt pexists noPostClobber p
    | none => postFilters o filt pexists noPostClobber p

/-- Result of one _backup call: fatal models the RuntimeError raised on a
period consistency violation; done res oldest submitted models the normal
return (res, oldest_date), with the posts handed to the thread pool recorded
in submitted. -/
inductive BatchResult where
  | fatal (submitted : List TPost)
  | done (res : Bool) (oldest : Option Int) (submitted : List TPost)
deriving DecidableEq, Repr

/-- The for-loop of _backup over the already sorted batch.  postCount threads
self.post_count, submitted the posts submitted to the pool so far, oldest the
running oldest_date value (assigned to post.date at the top of every
iteration). -/
def backupLoop (o : BackupOptions) (dash : Bool) (filt : Option (TPost → Bool))
    (pexists : TPost → Bool) (noPostClobber : Bool) :
    List TPost → Nat → List TPost → Option Int → BatchResult
  | [], _, submitted, oldest => .done true oldest submitted
  | p :: rest, postCount, submitted, _ =>
    let oldest := some (TPost.date o.likes p)
    match postDecision o dash filt pexists noPostClobber p with
    | .stopIncremental => .done false oldest submitted
    | .stopPeriod => .done false oldest submitted
    | .fatalPeriod => .fatal submitted
    | .skipPeriod => backupLoop o dash filt pexists noPostClobber rest postCount submitted oldest
    | .skip => backupLoop o dash filt pexists noPostClobber rest postCount submitted oldest
    | .submit =>
      let postCount := postCount + 1
      let countStop : Bool := match o.count with
        | some c => (c != 0) && decide (c ≤ postCount)
        | none => false
      if countStop then .done false oldest (submitted ++ [p])
      else backupLoop o dash filt pexists noPostClobber rest postCount (submitted ++ [p]) oldest

/-- _backup on a raw batch: sort descending by the sort key (line 862), then
run the loop with post_count 0 and no submissions yet. -/
def backupBatch (o : BackupOptions) (dash : Bool) (filt : Option (TPost → Bool))
    (pexists : TPost → Bool) (noPostClobber : Bool) (posts : List TPost) : BatchResult :=
  backupLoop o dash filt pexists noPostClobber
    (pySorted (sortKey o.likes) true posts) 0 [] none

/-! ### Cursor update of the pagination loop (tumblr_backup.py lines 960-964)

    elif before is not None and not api_parser.dashboard_only_blog:
        assert oldest_date <= before
        if oldest_date == before: oldest_date -= 1
        before = oldest_date
-/

/-- The before-cursor update: the oldest_date reported by _backup, decremented
by one second exactly when it equals the previous cursor. -/
def nextCursor (before oldest : Int) : Int :=
  if oldest = before then oldest - 1 else oldest

/-- The next cursor as the claim words it: the oldest effective timestamp
seen in the batch (the minimum of the post dates), decremented by one second
exactly when it equals the previous cursor.  Spec-side definition, compared
against the code-side value. -/
def claimNextCursor (likes : Bool) (before : Int) (batch : List TPost) : Option Int :=
  match (batch.map (TPost.date likes)).min? with
  | some m => some (if m = before then m - 1 else m)
  | none => none

/-- Successive cursor values of a run, starting from the initial before value
and consuming the oldest_date reported after each processed batch. -/
def cursorTrace : Int → List Int → List Int
  | b, [] => [b]
  | b, o :: os => b :: cursorTrace (nextCursor b o) os

/-- The asserted invariant of the pagination loop, batch by batch: each
reported oldest_date is at most the cursor the batch was fetched with
(the assert on line 961). -/
def validOldests : Int → List Int → Bool
  | _, [] => true
  | b, o :: os => decide (o ≤ b) && validOldests (nextCursor b o) os

/-! ### Index rebuild (tumblr_backup.py lines 575-665, 674-694)

Indices.build_index rescans the posts directory and feeds every LocalPost to
Index.add_post, which buckets it by (tm_year, tm_mon) of its file mtime;
Index.save_index then writes the top index and, through save_year/save_month,
one archive page per chunk of each month. -/

/-- A persisted post as the index rebuild sees it: the identity, the article
fragment that get_post extracts from the file, the file mtime used as sort
key, and the (tm_year, tm_mon) fields of time.localtime(mtime). -/
structure LocalPost where
  ident : String
  body : String
  date : Int
  year : Nat
  month : Nat
deriving DecidableEq, Repr

/-- The options and blog metadata the index rebuild reads.  posts_per_page
below 1 means a single unlimited page per month.  avatarFile is the basename
found by the avatar glob, if any. -/
structure IndexOptions where
  reverse_index : Bool
  reverse_month : Bool
  posts_per_page : Int
  tag_index : Bool
  dirs : Bool
  blogTitle : String
  blogSubtitle : String
  haveCustomCss : Bool
  avatarFile : Option String
deriving DecidableEq, Repr

/-- posixpath.join of two relative parts as used here: the parts joined by a
slash, with an empty first part giving the second unchanged. -/
def urlpathjoin2 (a b : String) : String :=
  if a = "" then b else a ++ "/" ++ b

/-- posixpath.join of three parts. -/
def urlpathjoin3 (a b c : String) : String :=
  urlpathjoin2 (urlpathjoin2 a b) c

/-- The global save_dir: two levels up in dirs mode, one otherwise (set in
TumblrBackup.backup, lines 794-799). -/
def saveDir (o : IndexOptions) : String :=
  if o.dirs then "../.." else ".."

/-- strftime with the %B format, modelled for the C locale: the English month
name. -/
def monthName : Nat → String
  | 1 => "January"
  | 2 => "February"
  | 3 => "March"
  | 4 => "April"
  | 5 => "May"
  | 6 => "June"
  | 7 => "July"
  | 8 => "August"
  | 9 => "September"
  | 10 => "October"
  | 11 => "November"
  | 12 => "December"
  | _ => ""

/-- Zero-padded two-digit rendering, the %02d of FILE_FMT. -/
def pad2 (n : Nat) : String :=
  if n < 10 then "0" ++ toString n else toString n

/-- FILE_FMT = %d-%02d-p%s%s applied to (year, month, page, suffix)
(line 630). -/
def fileFmt (year month page : Nat) (suffix : String) : String :=
  toString year ++ "-" ++ pad2 month ++ "-p" ++ toString page ++ suffix

/-- TumblrBackup.header (lines 730-756).  The page title tag always carries
self.title (the blog title); the h1 and subtitle lines are emitted only when
nonempty, mirroring Python truthiness. -/
def headerStr (o : IndexOptions) (title bodyClass subtitle : String)
    (avatar : Bool) : String :=
  let rootRel :=
    if bodyClass = "index" then ""
    else if bodyClass = "tag-index" then ".."
    else if bodyClass = "tag-archive" then "../.."
    else saveDir o
  let cssRel := urlpathjoin2 rootRel (if o.haveCustomCss then "custom.css" else "backup.css")
  let bodyCls := if bodyClass = "" then "" else " class=" ++ bodyClass
  let h := "<!DOCTYPE html>\n\n<meta charset=utf-8>\n<title>" ++ o.blogTitle
    ++ "</title>\n<link rel=stylesheet href=" ++ cssRel ++ ">\n\n<body"
    ++ bodyCls ++ ">\n\n<header>\n"
  let h := h ++ (if avatar then
      match o.avatarFile with
      | some f => "<img src=" ++ urlpathjoin3 rootRel "theme" f ++ " alt=Avatar>\n"
      | none => ""
    else "")
  let h := h ++ (if title = "" then "" else "<h1>" ++ title ++ "</h1>\n")
  let h := h ++ (if subtitle = "" then "" else "<p class=subtitle>" ++ subtitle ++ "</p>\n")
  h ++ "</header>\n"

/-- TumblrBackup.footer (lines 758-767). -/
def footerStr (o : IndexOptions) (base pp np : String) : String :=
  let f := "<footer><nav>" ++ "<a href=" ++ urlpathjoin2 (saveDir o) "index.html"
    ++ " rel=index>Index</a>\n"
  let f := f ++ (if pp = "" then "" else "| <a href=" ++ urlpathjoin2 base pp
    ++ " rel=prev>Previous</a>\n")
  let f := f ++ (if np = "" then "" else "| <a href=" ++ urlpathjoin2 base np
    ++ " rel=next>Next</a>\n")
  f ++ "</nav></footer>\n"

/-- The (year, month) bucket of Index.index: the posts of the scan list whose
localtime falls in that month, in scan order (add_post appends). -/
def bucket (l : List LocalPost) (y m : Nat) : List LocalPost :=
  l.filter (fun p => p.year == y && p.month == m)

/-- sorted over natural keys (dict keys are unique, so the list is
deduplicated first, matching iteration over dict keys). -/
def natSorted (rev : Bool) (l : List Nat) : List Nat :=
  pySorted (fun n => (n : Int)) rev l

/-- The year keys of the index, sorted with reverse=options.reverse_index
(line 598). -/
def yearsOf (l : List LocalPost) (rev : Bool) : List Nat :=
  natSorted rev ((l.map (fun p => p.year)).dedup)

/-- The month keys of one year, sorted with reverse=options.reverse_index
(line 606). -/
def monthsOf (l : List LocalPost) (y : Nat) (rev : Bool) : List Nat :=
  natSorted rev (((l.filter (fun p => p.year == y)).map (fun p => p.month)).dedup)

/-- Integer encoding of a (year, month) pair whose ordering agrees with the
Python tuple ordering, because tm_mon always lies between 1 and 12. -/
def pairKey (ym : Nat × Nat) : Int :=
  (ym.1 : Int) * 13 + (ym.2 : Int)

/-- archives: every (year, month) pair of the index, sorted with
reverse=options.reverse_month (lines 587-589). -/
def archivesOf (l : List LocalPost) (revMonth : Bool) : List (Nat × Nat) :=
  pySorted pairKey revMonth ((l.map (fun p => (p.year, p.month))).dedup)

/-- pages_per_month of save_month (lines 619-621); posts_page is the page
size of the month currently being saved (the closure variable). -/
def pagesPerMonth (l : List LocalPost) (postsPage : Nat) (y m : Nat) : Nat :=
  let pm := (bucket l y m).length
  pm / postsPage + (if pm % postsPage ≠ 0 then 1 else 0)

/-- next_month of save_month (lines 623-628): the archives entry inc away
from (y, m), or (0, 0) when it falls off either end. -/
def nextMonth (archives : List (Nat × Nat)) (y m : Nat) (inc : Int) : Nat × Nat :=
  match archives.indexOf? (y, m) with
  | some i =>
    let j : Int := (i : Int) + inc
    if 0 ≤ j ∧ j < (archives.length : Int) then archives.getD j.toNat (0, 0) else (0, 0)
  | none => (0, 0)

/-- Helper for chunkList, structurally recursive on a fuel argument so that
it evaluates inside the kernel; the fuel is always the list length, which
suffices because every step drops at least one element when k is nonzero. -/
def chunkListAux {α : Type} (k : Nat) : Nat → List α → List (List α)
  | _, [] => []
  | 0, _ :: _ => []
  | fuel + 1, a :: l =>
    if k = 0 then []
    else (a :: l).take k :: chunkListAux k fuel ((a :: l).drop k)

/-- The slices posts[start:start + k] for start in range(0, len posts, k).
The k = 0 case cannot be reached from save_month (a saved month is nonempty,
so posts_page is at least 1); Python would raise there. -/
def chunkList {α : Type} (k : Nat) (l : List α) : List (List α) :=
  chunkListAux k l.length l

/-- One archive page of save_month (the body of the loop on lines 633-662):
the page content and the path parts of the file it is written to. -/
def monthPage (o : IndexOptions) (l : List LocalPost) (archives : List (Nat × Nat))
    (year month postsPage pagesMonth : Nat) (page : Nat) (chunk : List LocalPost) :
    List String × String :=
  let suffix := if o.dirs then "/" else ".html"
  let fileName := fileFmt year month page suffix
  let base := if o.dirs then urlpathjoin2 (saveDir o) "archive" else ""
  let pathParts := if o.dirs then ["archive", fileName, "index.html"]
    else ["archive", fileName]
  let pp :=
    if 1 < page then fileFmt year month (page - 1) suffix
    else
      let ym := nextMonth archives year month (-1)
      if ym.1 ≠ 0 then fileFmt ym.1 ym.2 (pagesPerMonth l postsPage ym.1 ym.2) suffix else ""
  let np :=
    if page < pagesMonth then fileFmt year month (page + 1) suffix
    else
      let ym := nextMonth archives year month 1
      if ym.1 ≠ 0 then fileFmt ym.1 ym.2 1 suffix else ""
  let content := String.intercalate "\n"
    ([headerStr o (monthName month ++ " " ++ toString year) "archive" "" false]
      ++ chunk.map (fun p => p.body) ++ [footerStr o base pp np])
  (pathParts, content)

/-- save_month (lines 614-665): sort the bucket by date with
reverse=options.reverse_month, paginate, emit one file per page, and return
the files plus the file name of page 1 (first_file). -/
def saveMonth (o : IndexOptions) (l : List LocalPost) (archives : List (Nat × Nat))
    (year month : Nat) : List (List String × String) × String :=
  let posts := pySorted (fun p => p.date) o.reverse_month (bucket l year month)
  let postsMonth := posts.length
  let postsPage := if 1 ≤ o.posts_per_page then o.posts_per_page.toNat else postsMonth
  let pagesMonth := pagesPerMonth l postsPage year month
  let chunks := chunkList postsPage posts
  let files := chunks.enum.map (fun ic =>
    monthPage o l archives year month postsPage pagesMonth (ic.1 + 1) ic.2)
  let suffix := if o.dirs then "/" else ".html"
  (files, fileFmt year month 1 suffix)

/-- save_year (lines 604-612): the html fragment appended to the top index
for one year, together with the archive files of its months. -/
def saveYear (o : IndexOptions) (l : List LocalPost) (archives : List (Nat × Nat))
    (year : Nat) : String × List (List String × String) :=
  let months := monthsOf l year o.reverse_index
  let items := months.map (fun m =>
    let fm := saveMonth o l archives year m
    ("    <li><a href=" ++ urlpathjoin2 "archive" fm.2 ++ " title=\""
       ++ toString (bucket l year m).length ++ " post(s)\">" ++ monthName m
       ++ "</a></li>\n",
     fm.1))
  ("<h3>" ++ toString year ++ "</h3>\n<ul>\n" ++ String.join (items.map (fun i => i.1))
     ++ "</ul>\n\n",
   (items.map (fun i => i.2)).flatten)

/-- Index.save_index for the main index (lines 586-602) together with the
files save_month writes on the way: the first pair is the top index file, the
rest are the archive month pages.  now is the strftime of the wall clock at
generation time, which the source embeds in the top index footer
(line 600-602). -/
def save_index (o : IndexOptions) (l : List LocalPost) (now : String) :
    List (List String × String) :=
  let archives := archivesOf l o.reverse_month
  let years := yearsOf l o.reverse_index
  let yearParts := years.map (fun y => saveYear o l archives y)
  let idxContent := headerStr o o.blogTitle "index" o.blogSubtitle true
    ++ (if o.tag_index then "<p><a href=" ++ urlpathjoin2 "tags" "index.html"
          ++ ">Tag index</a></p>\n" else "")
    ++ String.join (yearParts.map (fun yp => yp.1))
    ++ "<footer><p>Generated on " ++ now
    ++ " by <a href=https://github.com/bbolli/tumblr-utils>tumblr-utils</a>.</p></footer>\n"
  (["index.html"], idxContent) :: (yearParts.map (fun yp => yp.2)).flatten

/-! ### Concrete instances used by witnesses and counterexamples -/

/-- A post with the smaller id but the larger timestamp. -/
def cxPostA : TPost :=
  { id := 1, timestamp := 200, liked_timestamp := 0, typ := "text", tags_lower := [],
    reblogged_from := false, trail := none }

/-- A post with the larger id but the smaller timestamp. -/
def cxPostB : TPost :=
  { id := 2, timestamp := 100, liked_timestamp := 0, typ := "text", tags_lower := [],
    reblogged_from := false, trail := none }

/-- Options for the cursor counterexample: posts mode, a period window that
both posts fall into, no other filters. -/
def c1opts : BackupOptions :=
  { likes := false, ident_max := none, period := some (0, 300), request := none,
    no_reblog := false, only_reblog := false, count := none }

/-- Options for the incremental witness: posts mode, high-water mark 5. -/
def c2opts : BackupOptions :=
  { likes := false, ident_max := some 5, period := none, request := none,
    no_reblog := false, only_reblog := false, count := none }

/-- A post above the incremental mark. -/
def c2PostHi : TPost :=
  { id := 6, timestamp := 60, liked_timestamp := 0, typ := "text", tags_lower := [],
    reblogged_from := false, trail := none }

/-- A post below the incremental mark. -/
def c2PostLo : TPost :=
  { id := 3, timestamp := 30, liked_timestamp := 0, typ := "text", tags_lower := [],
    reblogged_from := false, trail := none }

/-- An archived snapshot with the smaller id but the larger timestamp. -/
def cxArchA : ArchiveEntry := { ident := 1, timestamp := 200, liked_timestamp := 0, body := "a" }

/-- An archived snapshot with the larger id but the smaller timestamp. -/
def cxArchB : ArchiveEntry := { ident := 2, timestamp := 100, liked_timestamp := 0, body := "b" }

/-- An oracle that answers 429 on the first attempt and 200 afterwards. -/
def c5oracle : ApiRequest → Nat → Option ApiDoc := fun _ n =>
  if n = 0 then some { status := 429, errors := [], payload := [] }
  else some { status := 200, errors := [], payload := [1, 2] }

/-- A fixed request for the rate-limit witness. -/
def c5req : ApiRequest := { base := "b", params := [], headers := [] }

/-- Persisted posts for the index witnesses. -/
def cxLocalA : LocalPost := { ident := "1", body := "A", date := 5, year := 2020, month := 1 }

/-- A second persisted post in the same month with a distinct date. -/
def cxLocalB : LocalPost := { ident := "2", body := "B", date := 7, year := 2020, month := 1 }

/-- Index options for the index counterexample and witness. -/
def c3opts : IndexOptions :=
  { reverse_index := false, reverse_month := false, posts_per_page := 10, tag_index := false,
    dirs := false, blogTitle := "T", blogSubtitle := "", haveCustomCss := false,
    avatarFile := none }

/-! ## Theorems -/

/-! ### Facts about the stable sort -/

theorem pySorted_perm {α : Type} (key : α → Int) (rev : Bool) (l : List α) :
    pySorted key rev l ~ l := by
  unfold pySorted
  split
  · exact List.perm_insertionSort _ l
  · exact List.perm_insertionSort _ l

theorem pySorted_sorted_desc {α : Type} (key : α → Int) (l : List α) :
    (pySorted key true l).Sorted (keyDescRel key) := by
  simpa [pySorted] using List.sorted_insertionSort (keyDescRel key) l

theorem pySorted_sorted_asc {α : Type} (key : α → Int) (l : List α) :
    (pySorted key false l).Sorted (keyAscRel key) := by
  simpa [pySorted] using List.sorted_insertionSort (keyAscRel key) l

theorem pairwise_key_ne {α : Type} (key : α → Int) {l : List α}
    (h : (l.map key).Nodup) : l.Pairwise (fun a b => key a ≠ key b) :=
  List.pairwise_map.mp h

/-- Two permuted lists with pairwise distinct keys have the same stable sort:
with no key ties the sort order is forced, so the input order cannot show. -/
theorem pySorted_perm_eq {α : Type} (key : α → Int) (rev : Bool) {l₁ l₂ : List α}
    (h : l₁ ~ l₂) (hnd : (l₁.map key).Nodup) :
    pySorted key rev l₁ = pySorted key rev l₂ := by
  have hperm : pySorted key rev l₁ ~ pySorted key rev l₂ :=
    (pySorted_perm key rev l₁).trans (h.trans (pySorted_perm key rev l₂).symm)
  have hnd₂ : (l₂.map key).Nodup := ((h.map key).nodup_iff).mp hnd
  have hne₁ : (pySorted key rev l₁).Pairwise (fun a b => key a ≠ key b) :=
    pairwise_key_ne key ((((pySorted_perm key rev l₁).map key).nodup_iff).mpr hnd)
  have hne₂ : (pySorted key rev l₂).Pairwise (fun a b => key a ≠ key b) :=
    pairwise_key_ne key ((((pySorted_perm key rev l₂).map key).nodup_iff).mpr hnd₂)
  cases rev with
  | true =>
    haveI : IsAntisymm α (fun a b => key b < key a) :=
      ⟨fun _ _ h1 h2 => (lt_asymm h1 h2).elim⟩
    have hs₁ : (pySorted key true l₁).Pairwise (fun a b => key b < key a) :=
      List.Pairwise.imp (fun hh => lt_of_le_of_ne hh.1 (Ne.symm hh.2))
        (List.Pairwise.and (pySorted_sorted_desc key l₁) hne₁)
    have hs₂ : (pySorted key true l₂).Pairwise (fun a b => key b < key a) :=
      List.Pairwise.imp (fun hh => lt_of_le_of_ne hh.1 (Ne.symm hh.2))
        (List.Pairwise.and (pySorted_sorted_desc key l₂) hne₂)
    exact List.eq_of_perm_of_sorted hperm hs₁ hs₂
  | false =>
    haveI : IsAntisymm α (fun a b => key a < key b) :=
      ⟨fun _ _ h1 h2 => (lt_asymm h1 h2).elim⟩
    have hs₁ : (pySorted key false l₁).Pairwise (fun a b => key a < key b) :=
      List.Pairwise.imp (fun hh => lt_of_le_of_ne hh.1 hh.2)
        (List.Pairwise.and (pySorted_sorted_asc key l₁) hne₁)
    have hs₂ : (pySorted key false l₂).Pairwise (fun a b => key a < key b) :=
      List.Pairwise.imp (fun hh => lt_of_le_of_ne hh.1 hh.2)
        (List.Pairwise.and (pySorted_sorted_asc key l₂) hne₂)
    exact List.eq_of_perm_of_sorted hperm hs₁ hs₂

/-! ### Claim C10 -/

/-- Claim C10: get_api_url rejects an account name containing a path
separator, or equal to the single or double dot, with a ValueError (modelled
as none) before any network activity (the function is pure); any accepted
name without a dot gets .tumblr.com appended to form the domain, and an
accepted name with a dot is used as the domain unchanged. -/
theorem C10_get_api_url (likes : Bool) (account : String) :
    ((strHasChar account '/' ∨ strHasChar account '\\' ∨ account = "." ∨ account = "..") →
      get_api_url likes account = none) ∧
    (¬strHasChar account '/' → ¬strHasChar account '\\' → account ≠ "." → account ≠ ".." →
      ¬strHasChar account '.' →
      get_api_url likes account = some (account ++ ".tumblr.com",
        "https://api.tumblr.com/v2/blog/" ++ (account ++ ".tumblr.com") ++ "/"
          ++ (if likes then "likes" else "posts"))) ∧
    (¬strHasChar account '/' → ¬strHasChar account '\\' → account ≠ "." → account ≠ ".." →
      strHasChar account '.' →
      get_api_url likes account = some (account,
        "https://api.tumblr.com/v2/blog/" ++ account ++ "/"
          ++ (if likes then "likes" else "posts"))) := by
  refine ⟨fun h => ?_, fun h1 h2 h3 h4 h5 => ?_, fun h1 h2 h3 h4 h5 => ?_⟩
  · rcases h with h | h | h | h
    · simp [get_api_url, h]
    · simp [get_api_url, h]
    · subst h; simp [get_api_url]
    · subst h; simp [get_api_url]
  · have b1 : strHasChar account '/' = false := Bool.eq_false_iff.mpr h1
    have b2 : strHasChar account '\\' = false := Bool.eq_false_iff.mpr h2
    have b3 : (account == ".") = false := beq_eq_false_iff_ne.mpr h3
    have b4 : (account == "..") = false := beq_eq_false_iff_ne.mpr h4
    have b5 : strHasChar account '.' = false := Bool.eq_false_iff.mpr h5
    simp [get_api_url, b1, b2, b3, b4, b5]
  · have b1 : strHasChar account '/' = false := Bool.eq_false_iff.mpr h1
    have b2 : strHasChar account '\\' = false := Bool.eq_false_iff.mpr h2
    have b3 : (account == ".") = false := beq_eq_false_iff_ne.mpr h3
    have b4 : (account == "..") = false := beq_eq_false_iff_ne.mpr h4
    simp [get_api_url, b1, b2, b3, b4, h5]

/-- Witness for C10 at concrete account names. -/
theorem C10_get_api_url_witness :
    get_api_url false "some/name" = none ∧
    get_api_url false "example" = some ("example" ++ ".tumblr.com",
      "https://api.tumblr.com/v2/blog/" ++ ("example" ++ ".tumblr.com") ++ "/"
        ++ (if false then "likes" else "posts")) ∧
    get_api_url true "my.site" = some ("my.site",
      "https://api.tumblr.com/v2/blog/" ++ "my.site" ++ "/"
        ++ (if true then "likes" else "posts")) :=
  ⟨(C10_get_api_url false "some/name").1 (Or.inl (by decide)),
   (C10_get_api_url false "example").2.1 (by decide) (by decide) (by decide) (by decide)
     (by decide),
   (C10_get_api_url true "my.site").2.2 (by decide) (by decide) (by decide) (by decide)
     (by decide)⟩

/-! ### Claim C4 -/

/-- Counterexample to claim C4: in posts mode the batch is sorted by the
integer post id, not by the post timestamp.  With two posts whose id order and
timestamp order disagree, the order the filter chain sees differs from the
effective-timestamp descending order the claim states. -/
theorem C4_counterexample :
    pySorted (sortKey false) true [cxPostA, cxPostB] ≠
      pySorted (TPost.date false) true [cxPostA, cxPostB] := by decide

/-- Amended claim C4: per page the posts are sorted descending by the sort
key (the liked timestamp in likes mode, the integer post id in posts mode)
before the filter chain runs; the sorted batch is a permutation of the page
(nothing is dropped or duplicated), and in likes mode the sort key is the
effective timestamp, so there the claim holds as stated. -/
theorem C4_amended (likes : Bool) (posts : List TPost) :
    (pySorted (sortKey likes) true posts).Sorted (keyDescRel (sortKey likes)) ∧
    Perm (pySorted (sortKey likes) true posts) posts ∧
    (likes = true →
      pySorted (sortKey likes) true posts = pySorted (TPost.date likes) true posts) := by
  refine ⟨pySorted_sorted_desc _ _, pySorted_perm _ _ _, fun hl => ?_⟩
  subst hl
  have hk : sortKey true = TPost.date true := by
    funext p
    rfl
  rw [hk]

/-- Witness for the amended claim C4 at a concrete likes-mode batch. -/
theorem C4_amended_witness :
    pySorted (sortKey true) true [cxPostA, cxPostB] =
      pySorted (TPost.date true) true [cxPostA, cxPostB] :=
  (C4_amended true [cxPostA, cxPostB]).2.2 rfl

/-! ### Claim C7 -/

/-- Once dashboard_only_blog is set, no later response changes it. -/
theorem dashboardStep_some (likes : Bool) (b : Bool) (doc : ApiDoc) :
    dashboardStep likes (some b) doc = some b := by
  unfold dashboardStep
  by_cases h2 : doc.status ≠ 200
  · rw [if_pos h2, if_neg]
    simp
  · rw [if_neg h2]

/-- Claim C7: the dashboard endpoint choice is sticky.  A response processed
with the choice already made never changes it; from the undecided state the
switch to the dashboard endpoint happens only on a 404 response carrying
exactly one error with code 4012 while likes mode is off; and over any whole
run, once the field holds a value every later response keeps it, so the
switch happens at most once per account. -/
theorem C7_dashboard (likes : Bool) :
    (∀ (b : Bool) (doc : ApiDoc), dashboardStep likes (some b) doc = some b) ∧
    (∀ doc : ApiDoc, dashboardStep likes none doc = some true →
      doc.status = 404 ∧ likes = false ∧ doc.errors = [some 4012]) ∧
    (∀ (docs : List ApiDoc) (b : Bool),
      docs.foldl (dashboardStep likes) (some b) = some b) := by
  refine ⟨dashboardStep_some likes, fun doc h => ?_, fun docs => ?_⟩
  · unfold dashboardStep at h
    split at h
    · split at h
      · rename_i hcond
        obtain ⟨-, h404, hlikes⟩ := hcond
        refine ⟨h404, hlikes, ?_⟩
        split at h
        · rename_i c heq
          split at h
          · rename_i hc
            subst hc
            exact heq
          · exact absurd h (by simp)
        · exact absurd h (by simp)
      · exact absurd h (by simp)
    · exact absurd h (by simp)
  · induction docs with
    | nil => intro b; rfl
    | cons d ds ih =>
      intro b
      simp only [List.foldl_cons, dashboardStep_some likes b d]
      exact ih b

/-- Witness for C7: the trigger characterization applied to a concrete
dashboard-discovery response, and stickiness over a concrete run. -/
theorem C7_dashboard_witness :
    ((⟨404, [some 4012], []⟩ : ApiDoc).status = 404 ∧ false = false ∧
      (⟨404, [some 4012], []⟩ : ApiDoc).errors = [some 4012]) ∧
    [(⟨200, [], []⟩ : ApiDoc), ⟨404, [some 4012], []⟩].foldl
      (dashboardStep false) (some false) = some false :=
  ⟨(C7_dashboard false).2.1 ⟨404, [some 4012], []⟩ (by decide),
   (C7_dashboard false).2.2 [⟨200, [], []⟩, ⟨404, [some 4012], []⟩] false⟩

/-! ### Claim C8 -/

/-- Claim C8: with a period window (p_start, p_stop) configured and the
incremental mark absent, a post dated strictly after p_stop raises the
RuntimeError (fatal) when the blog is not dashboard-only; on a dashboard-only
blog the same post is silently skipped (nothing submitted) and the loop
continues with the remaining posts; a post dated before p_start stops the run
successfully (result False, no error). -/
theorem C8_period_bounds (o : BackupOptions) (dash : Bool)
    (filt : Option (TPost → Bool)) (pexists : TPost → Bool) (npc : Bool)
    (pstart pstop : Int) (p : TPost) (rest : List TPost)
    (pc : Nat) (sub : List TPost) (old : Option Int)
    (hper : o.period = some (pstart, pstop)) (hid : o.ident_max = none) :
    (pstop < TPost.date o.likes p → dash = false →
      backupLoop o dash filt pexists npc (p :: rest) pc sub old =
        BatchResult.fatal sub) ∧
    (pstop < TPost.date o.likes p → dash = true →
      backupLoop o dash filt pexists npc (p :: rest) pc sub old =
        backupLoop o dash filt pexists npc rest pc sub
          (some (TPost.date o.likes p))) ∧
    (pstart ≤ pstop → TPost.date o.likes p < pstart →
      backupLoop o dash filt pexists npc (p :: rest) pc sub old =
        BatchResult.done false (some (TPost.date o.likes p)) sub) := by
  refine ⟨fun hgt hdash => ?_, fun hgt hdash => ?_, fun hse hlt => ?_⟩
  · subst hdash
    have hd : postDecision o false filt pexists npc p = .fatalPeriod := by
      unfold postDecision
      rw [hid, hper]
      simp [hgt]
    simp only [backupLoop, hd]
  · subst hdash
    have hd : postDecision o true filt pexists npc p = .skipPeriod := by
      unfold postDecision
      rw [hid, hper]
      simp [hgt]
    simp only [backupLoop, hd]
  · have hnotgt : ¬pstop < TPost.date o.likes p :=
      not_lt.mpr (le_of_lt (lt_of_lt_of_le hlt hse))
    have hd : postDecision o dash filt pexists npc p = .stopPeriod := by
      unfold postDecision
      rw [hid, hper]
      simp [hnotgt, hlt]
    simp only [backupLoop, hd]

/-- Witness for C8 on concrete posts around the window (10, 20). -/
theorem C8_period_bounds_witness :
    (backupLoop
        { likes := false, ident_max := none, period := some (10, 20), request := none,
          no_reblog := false, only_reblog := false, count := none }
        false none (fun _ => false) false
        [{ id := 1, timestamp := 25, liked_timestamp := 0, typ := "text", tags_lower := [],
           reblogged_from := false, trail := none }] 0 [] none =
      BatchResult.fatal []) ∧
    (backupLoop
        { likes := false, ident_max := none, period := some (10, 20), request := none,
          no_reblog := false, only_reblog := false, count := none }
        false none (fun _ => false) false
        [{ id := 1, timestamp := 5, liked_timestamp := 0, typ := "text", tags_lower := [],
           reblogged_from := false, trail := none }] 0 [] none =
      BatchResult.done false (some 5) []) :=
  ⟨((C8_period_bounds _ false none (fun _ => false) false 10 20 _ [] 0 [] none rfl rfl).1
      (by decide) rfl),
   ((C8_period_bounds _ false none (fun _ => false) false 10 20 _ [] 0 [] none rfl rfl).2.2
      (by decide) (by decide))⟩

/-! ### Claim C9 -/

/-- The reblog classification, characterized.  A post is classified as a
reblog exactly when either a reblog-source field is present and the trail is
present and empty, or the trail is present with a last element lacking the
is_current_item marker (whether or not a reblog-source field is present). -/
theorem post_is_reblog_iff (p : TPost) :
    post_is_reblog p = true ↔
      ((p.reblogged_from = true ∧ (p.trail = some [] ∨
          ∃ l, p.trail = some l ∧ l.getLast? = some false)) ∨
        (p.reblogged_from = false ∧
          ∃ l, p.trail = some l ∧ l ≠ [] ∧ l.getLast? = some false)) := by
  obtain ⟨id, ts, lts, typ, tags, rf, trail⟩ := p
  cases rf with
  | true =>
    cases trail with
    | none => simp [post_is_reblog]
    | some l =>
      cases l with
      | nil => simp [post_is_reblog]
      | cons x xs =>
        simp only [post_is_reblog]
        cases hl : (x :: xs).getLast? with
        | none => simp at hl
        | some marker =>
          cases marker with
          | true => simp [hl]
          | false => simp [hl]
  | false =>
    cases trail with
    | none => simp [post_is_reblog]
    | some l =>
      cases l with
      | nil => simp [post_is_reblog]
      | cons x xs =>
        simp only [post_is_reblog]
        cases hl : (x :: xs).getLast? with
        | none => simp at hl
        | some marker =>
          cases marker with
          | true => simp [hl]
          | false => simp [hl]

/-- Claim C9: the classification used by the reblog filter holds exactly in
the two cases the claim lists, posts so classified are never submitted when
the no-reblog option is on, and only posts so classified can be submitted
when the only-reblog option is on. -/
theorem C9_reblog_filter (p : TPost) (o : BackupOptions)
    (filt : Option (TPost → Bool)) (pexists : TPost → Bool) (npc : Bool) :
    (post_is_reblog p = true ↔
      ((p.reblogged_from = true ∧ (p.trail = some [] ∨
          ∃ l, p.trail = some l ∧ l.getLast? = some false)) ∨
        (p.reblogged_from = false ∧
          ∃ l, p.trail = some l ∧ l ≠ [] ∧ l.getLast? = some false))) ∧
    (o.no_reblog = true → post_is_reblog p = true →
      postFilters o filt pexists npc p ≠ .submit) ∧
    (o.only_reblog = true → post_is_reblog p = false →
      postFilters o filt pexists npc p ≠ .submit) := by
  refine ⟨post_is_reblog_iff p, fun hno hreb => ?_, fun honly hreb => ?_⟩
  · unfold postFilters
    cases hrq : requestSkip o.request p
    · simp [hrq, hno, hreb]
    · simp [hrq]
  · unfold postFilters
    cases hrq : requestSkip o.request p
    · simp [hrq, honly, hreb]
    · simp [hrq]

/-- Witness for C9 on a concrete reblog post under the no-reblog option. -/
theorem C9_reblog_filter_witness :
    (post_is_reblog
        { id := 9, timestamp := 1, liked_timestamp := 0, typ := "text", tags_lower := [],
          reblogged_from := true, trail := some [] } = true ↔
      (((true : Bool) = true ∧ ((some ([] : List Bool) : Option (List Bool)) = some [] ∨
          ∃ l, (some ([] : List Bool) : Option (List Bool)) = some l ∧
            l.getLast? = some false)) ∨
        ((true : Bool) = false ∧
          ∃ l, (some ([] : List Bool) : Option (List Bool)) = some l ∧ l ≠ [] ∧
            l.getLast? = some false))) ∧
    postFilters
        { likes := false, ident_max := none, period := none, request := none,
          no_reblog := true, only_reblog := false, count := none }
        none (fun _ => false) false
        { id := 9, timestamp := 1, liked_timestamp := 0, typ := "text", tags_lower := [],
          reblogged_from := true, trail := some [] } ≠ .submit :=
  ⟨(C9_reblog_filter
      { id := 9, timestamp := 1, liked_timestamp := 0, typ := "text", tags_lower := [],
        reblogged_from := true, trail := some [] }
      { likes := false, ident_max := none, period := none, request := none,
        no_reblog := true, only_reblog := false, count := none }
      none (fun _ => false) false).1,
   (C9_reblog_filter _ _ none (fun _ => false) false).2.1 rfl (by decide)⟩

/-! ### Claim C5 -/

/-- If the first k attempts answer 429 and attempt k answers something else,
the loop performs exactly the sleeps 30·2^0 … 30·2^(k-1) (starting from the
given sleepDur), issues the identical request on every attempt, and returns
the document of attempt k. -/
theorem rateLimitLoop_success (getResp : ApiRequest → Nat → Option ApiDoc)
    (req : ApiRequest) (doc : ApiDoc) (hdoc : doc.status ≠ 429) :
    ∀ (k attempt sleepDur fuel : Nat),
      (∀ i, i < k → ∃ d, getResp req (attempt + i) = some d ∧ d.status = 429) →
      getResp req (attempt + k) = some doc → k < fuel →
      rateLimitLoop getResp req fuel attempt sleepDur =
        some (List.replicate (k + 1) req,
          (List.range k).map (fun i => sleepDur * 2 ^ i), some doc) := by
  intro k
  induction k with
  | zero =>
    intro attempt sleepDur fuel h429 hk hfuel
    obtain ⟨fuel, rfl⟩ : ∃ f, fuel = f + 1 := ⟨fuel - 1, by omega⟩
    rw [Nat.add_zero] at hk
    simp [rateLimitLoop, hk, hdoc]
  | succ k ih =>
    intro attempt sleepDur fuel h429 hk hfuel
    obtain ⟨fuel, rfl⟩ : ∃ f, fuel = f + 1 := ⟨fuel - 1, by omega⟩
    obtain ⟨d, hd, hd429⟩ := h429 0 (Nat.succ_pos k)
    rw [Nat.add_zero] at hd
    have hrec := ih (attempt + 1) (sleepDur * 2) fuel
      (fun i hi => by
        obtain ⟨d2, hd2, h2⟩ := h429 (i + 1) (by omega)
        refine ⟨d2, ?_, h2⟩
        rw [show attempt + 1 + i = attempt + (i + 1) by omega]
        exact hd2)
      (by rw [show attempt + 1 + k = attempt + (k + 1) by omega]; exact hk)
      (by omega)
    have hpow : ∀ i : Nat, sleepDur * 2 * 2 ^ i = sleepDur * 2 ^ (i + 1) := by
      intro i
      ring
    simp [rateLimitLoop, hd, hd429, hrec, List.replicate_succ,
      List.range_succ_eq_map, List.map_map, Function.comp, hpow]

/-- While every attempt answers 429, the loop never returns: in particular it
never returns a failure. -/
theorem rateLimitLoop_allThrottled (getResp : ApiRequest → Nat → Option ApiDoc)
    (req : ApiRequest)
    (h : ∀ i, ∃ d, getResp req i = some d ∧ d.status = 429) :
    ∀ (fuel attempt sleepDur : Nat),
      rateLimitLoop getResp req fuel attempt sleepDur = none := by
  intro fuel
  induction fuel with
  | zero => intro attempt sleepDur; rfl
  | succ fuel ih =>
    intro attempt sleepDur
    obtain ⟨d, hd, h429⟩ := h attempt
    simp [rateLimitLoop, hd, h429, ih]

/-- Claim C5: on 429 responses the fetch sleeps and retries the identical
request with exponential backoff.  First part: when the first k attempts are
throttled and attempt k is not, the loop issues k+1 identical requests,
sleeps exactly 30, 60, …, 30·2^(k-1) seconds, and returns exactly the
document of the retried call (no response dropped or duplicated).  Second
part: while every attempt is throttled the loop never returns, for any
amount of fuel — this path never gives up with a failure. -/
theorem C5_rate_limit (getResp : ApiRequest → Nat → Option ApiDoc) (req : ApiRequest) :
    (∀ (k fuel : Nat) (doc : ApiDoc),
      (∀ i, i < k → ∃ d, getResp req i = some d ∧ d.status = 429) →
      getResp req k = some doc → doc.status ≠ 429 → k < fuel →
      rateLimitLoop getResp req fuel 0 30 =
        some (List.replicate (k + 1) req,
          (List.range k).map (fun i => 30 * 2 ^ i), some doc)) ∧
    (∀ fuel : Nat, (∀ i, ∃ d, getResp req i = some d ∧ d.status = 429) →
      rateLimitLoop getResp req fuel 0 30 = none) := by
  constructor
  · intro k fuel doc h429 hk hstat hfuel
    refine rateLimitLoop_success getResp req doc hstat k 0 30 fuel ?_ ?_ hfuel
    · intro i hi
      simpa using h429 i hi
    · simpa using hk
  · intro fuel hall
    exact rateLimitLoop_allThrottled getResp req hall fuel 0 30

/-- Witness for C5: one throttled attempt followed by a successful one. -/
theorem C5_rate_limit_witness :
    rateLimitLoop c5oracle c5req 3 0 30 =
      some (List.replicate 2 c5req, (List.range 1).map (fun i => 30 * 2 ^ i),
        some { status := 200, errors := [], payload := [1, 2] }) :=
  (C5_rate_limit c5oracle c5req).1 1 3 { status := 200, errors := [], payload := [1, 2] }
    (fun i hi => by
      have hi0 : i = 0 := by omega
      subst hi0
      exact ⟨{ status := 429, errors := [], payload := [] }, rfl, rfl⟩)
    rfl (by decide) (by omega)

/-! ### Claim C2 -/

/-- The filter chain after the incremental and period tests never stops the
run: it either skips the post or submits it. -/
theorem postFilters_skip_or_submit (o : BackupOptions) (filt : Option (TPost → Bool))
    (pexists : TPost → Bool) (npc : Bool) (p : TPost) :
    postFilters o filt pexists npc p = .skip ∨
      postFilters o filt pexists npc p = .submit := by
  unfold postFilters
  split
  · exact Or.inl rfl
  · split
    · exact Or.inl rfl
    · split
      · exact Or.inl rfl
      · split
        · exact Or.inl rfl
        · split
          · exact Or.inl rfl
          · exact Or.inr rfl

/-- The incremental stop, over the loop: processing a batch whose prefix
keys all lie above the mark M and that then reaches a post with key at most
M stops the run successfully at exactly that post (the posts after it are
never examined), and everything submitted on the way has key above M. -/
theorem backupLoop_ident_stop (o : BackupOptions) (dash : Bool)
    (filt : Option (TPost → Bool)) (pexists : TPost → Bool) (npc : Bool)
    (M : Int) (hM : o.ident_max = some M) (hper : o.period = none)
    (hcnt : o.count = none) :
    ∀ (l₁ : List TPost) (p : TPost) (l₂ : List TPost) (pc : Nat)
      (sub : List TPost) (old : Option Int),
      (∀ x ∈ l₁, M < sortKey o.likes x) → sortKey o.likes p ≤ M →
      (∀ q ∈ sub, M < sortKey o.likes q) →
      ∃ subl, backupLoop o dash filt pexists npc (l₁ ++ p :: l₂) pc sub old =
          BatchResult.done false (some (TPost.date o.likes p)) subl ∧
        ∀ q ∈ subl, M < sortKey o.likes q := by
  intro l₁
  induction l₁ with
  | nil =>
    intro p l₂ pc sub old h1 hp hsub
    have hd : postDecision o dash filt pexists npc p = .stopIncremental := by
      unfold postDecision
      rw [hM]
      simp [hp]
    refine ⟨sub, ?_, hsub⟩
    simp only [List.nil_append, backupLoop, hd]
  | cons x xs ih =>
    intro p l₂ pc sub old h1 hp hsub
    have hx : M < sortKey o.likes x := h1 x (by simp)
    have hxs : ∀ y ∈ xs, M < sortKey o.likes y := fun y hy => h1 y (by simp [hy])
    have hne : postDecision o dash filt pexists npc x =
        postFilters o filt pexists npc x := by
      unfold postDecision
      rw [hM, hper]
      simp [not_le.mpr hx]
    rcases postFilters_skip_or_submit o filt pexists npc x with hf | hf
    · simp only [List.cons_append, backupLoop, hne, hf]
      exact ih p l₂ pc sub (some (TPost.date o.likes x)) hxs hp hsub
    · simp only [List.cons_append, backupLoop, hne, hf, hcnt]
      refine ih p l₂ (pc + 1) (sub ++ [x]) (some (TPost.date o.likes x)) hxs hp ?_
      intro q hq
      rcases List.mem_append.mp hq with hq | hq
      · exact hsub q hq
      · rw [List.mem_singleton.mp hq]
        exact hx

/-- Claim C2: with a recorded high-water mark M and no competing stop
condition configured (no period window, no post-count limit), a sorted batch
that straddles M submits only posts with key strictly above M, and the run
stops successfully at the first post in processing order whose key is at
most M. -/
theorem C2_incremental (o : BackupOptions) (dash : Bool)
    (filt : Option (TPost → Bool)) (pexists : TPost → Bool) (npc : Bool)
    (M : Int) (posts l₁ l₂ : List TPost) (p : TPost)
    (hM : o.ident_max = some M) (hper : o.period = none) (hcnt : o.count = none)
    (hsplit : pySorted (sortKey o.likes) true posts = l₁ ++ p :: l₂)
    (h1 : ∀ x ∈ l₁, M < sortKey o.likes x) (hp : sortKey o.likes p ≤ M) :
    ∃ subl, backupBatch o dash filt pexists npc posts =
        BatchResult.done false (some (TPost.date o.likes p)) subl ∧
      ∀ q ∈ subl, M < sortKey o.likes q := by
  unfold backupBatch
  rw [hsplit]
  exact backupLoop_ident_stop o dash filt pexists npc M hM hper hcnt
    l₁ p l₂ 0 [] none h1 hp (by simp)

/-- Witness for C2: a concrete batch straddling the mark 5. -/
theorem C2_incremental_witness :
    ∃ subl, backupBatch c2opts false none (fun _ => false) false
        [c2PostLo, c2PostHi] =
        BatchResult.done false (some 30) subl ∧
      ∀ q ∈ subl, 5 < sortKey false q :=
  C2_incremental c2opts false none (fun _ => false) false 5
    [c2PostLo, c2PostHi] [c2PostHi] [] c2PostLo
    rfl rfl rfl (by decide) (by decide) (by decide)

/-! ### Claim C1 -/

/-- Single cursor step: under the asserted invariant oldest ≤ before, the
updated cursor is strictly below the previous one (the decrement by one
second fires exactly on equality). -/
theorem nextCursor_lt (b o : Int) (h : o ≤ b) : nextCursor b o < b := by
  unfold nextCursor
  split
  · omega
  · omega

/-- The cursor trace always starts with the initial cursor. -/
theorem cursorTrace_head (b : Int) (os : List Int) :
    (cursorTrace b os).head? = some b := by
  cases os <;> rfl

/-- Under the asserted invariant at every batch, the cursor trace is strictly
decreasing. -/
theorem cursorTrace_chain (os : List Int) :
    ∀ b, validOldests b os = true →
      (cursorTrace b os).Chain' (fun x y => y < x) := by
  induction os with
  | nil =>
    intro b _
    simp [cursorTrace]
  | cons o os ih =>
    intro b h
    simp only [validOldests, Bool.and_eq_true, decide_eq_true_eq] at h
    obtain ⟨h1, h2⟩ := h
    simp only [cursorTrace]
    rw [List.chain'_cons']
    constructor
    · intro y hy
      rw [cursorTrace_head] at hy
      have hy2 : y = nextCursor b o := by
        simpa using hy.symm
      rw [hy2]
      exact nextCursor_lt b o h1
    · exact ih (nextCursor b o) h2

/-- A batch run that returns (True, oldest) examined every post, so the
reported oldest date is the date of the last post in the processed order. -/
theorem backupLoop_done_true_oldest (o : BackupOptions) (dash : Bool)
    (filt : Option (TPost → Bool)) (pexists : TPost → Bool) (npc : Bool) :
    ∀ (l : List TPost) (pc : Nat) (sub : List TPost) (old0 old1 : Option Int)
      (sub1 : List TPost),
      backupLoop o dash filt pexists npc l pc sub old0 =
        BatchResult.done true old1 sub1 →
      (l = [] ∧ old1 = old0) ∨
        ∃ p, l.getLast? = some p ∧ old1 = some (TPost.date o.likes p) := by
  intro l
  induction l with
  | nil =>
    intro pc sub old0 old1 sub1 h
    simp only [backupLoop, BatchResult.done.injEq] at h
    exact Or.inl ⟨rfl, h.2.1.symm⟩
  | cons p rest ih =>
    intro pc sub old0 old1 sub1 h
    simp only [backupLoop] at h
    split at h
    · simp at h
    · simp at h
    · simp at h
    · rcases ih _ _ _ _ _ h with ⟨hrest, hold⟩ | ⟨q, hq, hold⟩
      · subst hrest
        exact Or.inr ⟨p, rfl, hold⟩
      · refine Or.inr ⟨q, ?_, hold⟩
        cases rest with
        | nil => simp at hq
        | cons r rs => rw [List.getLast?_cons_cons]; exact hq
    · rcases ih _ _ _ _ _ h with ⟨hrest, hold⟩ | ⟨q, hq, hold⟩
      · subst hrest
        exact Or.inr ⟨p, rfl, hold⟩
      · refine Or.inr ⟨q, ?_, hold⟩
        cases rest with
        | nil => simp at hq
        | cons r rs => rw [List.getLast?_cons_cons]; exact hq
    · split at h
      · simp at h
      · rcases ih _ _ _ _ _ h with ⟨hrest, hold⟩ | ⟨q, hq, hold⟩
        · subst hrest
          exact Or.inr ⟨p, rfl, hold⟩
        · refine Or.inr ⟨q, ?_, hold⟩
          cases rest with
          | nil => simp at hq
          | cons r rs => rw [List.getLast?_cons_cons]; exact hq

/-- Counterexample to claim C1: the value stored into the cursor is the date
of the last post in sort-key order, not the oldest effective timestamp of the
batch.  With ids ordered against timestamps (cxPostA: id 1, timestamp 200;
cxPostB: id 2, timestamp 100) and previous cursor 300, the code computes 200
while the claim prescribes 100. -/
theorem C1_counterexample :
    (match backupBatch c1opts false none (fun _ => false) false
        [cxPostA, cxPostB] with
      | BatchResult.done true (some o) _ => some (nextCursor 300 o)
      | _ => none) = some 200 ∧
    claimNextCursor false 300 [cxPostA, cxPostB] = some 100 ∧
    (some (200 : Int) : Option Int) ≠ some 100 := by decide

/-- Amended claim C1: after each fully processed batch the controller sets
the next cursor to the effective timestamp of the last post in the processed
(sort-key descending) order — the post with the smallest sort key, which in
likes mode is the oldest effective timestamp but in posts mode is the date of
the smallest id — decremented by one second exactly when it equals the
previous cursor; under the asserted invariant oldest ≤ cursor the cursor
sequence is strictly decreasing and never repeats. -/
theorem C1_amended_cursor :
    (∀ (o : BackupOptions) (dash : Bool) (filt : Option (TPost → Bool))
        (pexists : TPost → Bool) (npc : Bool) (posts : List TPost)
        (old : Int) (subl : List TPost),
      backupBatch o dash filt pexists npc posts =
        BatchResult.done true (some old) subl →
      ∃ p, (pySorted (sortKey o.likes) true posts).getLast? = some p ∧
        old = TPost.date o.likes p) ∧
    (∀ b o : Int, o ≤ b → nextCursor b o < b) ∧
    (∀ (b : Int) (os : List Int), validOldests b os = true →
      (cursorTrace b os).Chain' (fun x y => y < x)) ∧
    (∀ (b : Int) (os : List Int), validOldests b os = true →
      (cursorTrace b os).Pairwise (fun x y => x ≠ y)) := by
  refine ⟨?_, nextCursor_lt, fun b os h => cursorTrace_chain os b h, fun b os h => ?_⟩
  · intro o dash filt pexists npc posts old subl h
    unfold backupBatch at h
    rcases backupLoop_done_true_oldest o dash filt pexists npc _ _ _ _ _ _ h with
      ⟨hnil, hold⟩ | ⟨p, hp, hold⟩
    · simp at hold
    · exact ⟨p, hp, Option.some.inj hold⟩
  · have hc := cursorTrace_chain os b h
    haveI : IsTrans Int (fun x y => y < x) := ⟨fun _ _ _ h1 h2 => lt_trans h2 h1⟩
    rw [List.chain'_iff_pairwise] at hc
    exact hc.imp (fun hlt => ne_of_gt hlt)

/-- Witness for the amended claim C1 on the counterexample batch and a
concrete cursor trace. -/
theorem C1_amended_cursor_witness :
    (∃ p, (pySorted (sortKey false) true [cxPostA, cxPostB]).getLast? = some p ∧
      (200 : Int) = TPost.date false p) ∧
    nextCursor 300 200 < 300 ∧
    (cursorTrace 300 [200, 150]).Chain' (fun x y => y < x) :=
  ⟨C1_amended_cursor.1 c1opts false none (fun _ => false) false [cxPostA, cxPostB]
      200 [cxPostB, cxPostA] (by decide),
   C1_amended_cursor.2.1 300 200 (by decide),
   C1_amended_cursor.2.2.1 300 [200, 150] (by decide)⟩

/-! ### Claim C6 -/

/-- Counterexample to claim C6: in posts mode the archive is replayed in
descending id order, not descending effective-timestamp order.  With two
snapshots whose ids and timestamps are ordered oppositely, the page the code
returns differs from the claimed one. -/
theorem C6_counterexample :
    (apiparse_replay false (read_archive false [cxArchA, cxArchB]) 2 0 none).posts ≠
      claimReplayFetch false [cxArchA, cxArchB] 2 0 none := by decide

/-- Amended claim C6: the replayed page equals the archived snapshots sorted
descending by the replay key (liked timestamp in likes mode, post id
otherwise), entries with effective timestamp at least before dropped, then
sliced from start taking count; the blog post count is the archive size; in
likes mode the replay key is the effective timestamp, so there the claim
holds as stated; and with a positive count an empty page signals exhaustion
of the dropped list. -/
theorem C6_replay (likes : Bool) (entries : List ArchiveEntry)
    (count start : Nat) (before : Option Int) :
    ((apiparse_replay likes (read_archive likes entries) count start before).posts =
      amendedReplayFetch likes entries count start before) ∧
    ((apiparse_replay likes (read_archive likes entries) count start before).blogPosts =
      entries.length) ∧
    (likes = true →
      (apiparse_replay likes (read_archive likes entries) count start before).posts =
        claimReplayFetch likes entries count start before) ∧
    (0 < count →
      ((apiparse_replay likes (read_archive likes entries) count start before).posts
          = [] ↔
        (match before with
          | some b => (read_archive likes entries).dropWhile
              (fun e => decide (b ≤ ArchiveEntry.effts likes e))
          | none => read_archive likes entries).length ≤ start)) := by
  refine ⟨rfl, (pySorted_perm (archiveSortKey likes) true entries).length_eq,
    fun hl => ?_, fun hc => ?_⟩
  · subst hl
    have hk : archiveSortKey true = ArchiveEntry.effts true := by
      funext e
      rfl
    simp [apiparse_replay, read_archive, claimReplayFetch, hk]
  · cases before with
    | none =>
      simp only [apiparse_replay]
      rw [List.take_eq_nil_iff, List.drop_eq_nil_iff]
      constructor
      · rintro (h | h)
        · omega
        · exact h
      · intro h
        exact Or.inr h
    | some b =>
      simp only [apiparse_replay]
      rw [List.take_eq_nil_iff, List.drop_eq_nil_iff]
      constructor
      · rintro (h | h)
        · omega
        · exact h
      · intro h
        exact Or.inr h

/-- Witness for the amended claim C6 in likes mode and for the exhaustion
signal on a concrete archive. -/
theorem C6_replay_witness :
    ((apiparse_replay true (read_archive true [cxArchA, cxArchB]) 2 0 none).posts =
      claimReplayFetch true [cxArchA, cxArchB] 2 0 none) ∧
    ((apiparse_replay false (read_archive false [cxArchA, cxArchB]) 2 5 none).posts
        = [] ↔
      (read_archive false [cxArchA, cxArchB]).length ≤ 5) :=
  ⟨(C6_replay true [cxArchA, cxArchB] 2 0 none).2.2.1 rfl,
   (C6_replay false [cxArchA, cxArchB] 2 5 none).2.2.2 (by decide)⟩

/-! ### Claim C3 -/

/-- Sorting the deduplicated keys of permuted lists gives identical lists:
dict key iteration order cannot show through the sorted output. -/
theorem natSorted_dedup_eq (rev : Bool) {l₁ l₂ : List Nat} (h : Perm l₁ l₂) :
    natSorted rev l₁.dedup = natSorted rev l₂.dedup := by
  apply pySorted_perm_eq _ rev h.dedup
  exact List.Nodup.map (fun a b hab => by exact_mod_cast hab) (List.nodup_dedup l₁)

theorem bucket_perm {l₁ l₂ : List LocalPost} (h : Perm l₁ l₂) (y m : Nat) :
    Perm (bucket l₁ y m) (bucket l₂ y m) := h.filter _

theorem bucket_sublist (l : List LocalPost) (y m : Nat) : bucket l y m <+ l :=
  List.filter_sublist l

/-- With pairwise distinct dates, the per-month date sort is independent of
the scan order. -/
theorem bucket_sorted_eq {l₁ l₂ : List LocalPost} (h : Perm l₁ l₂)
    (hnd : (l₁.map (fun p => p.date)).Nodup) (rev : Bool) (y m : Nat) :
    pySorted (fun p => p.date) rev (bucket l₁ y m) =
      pySorted (fun p => p.date) rev (bucket l₂ y m) := by
  apply pySorted_perm_eq _ rev (bucket_perm h y m)
  exact List.Nodup.sublist ((bucket_sublist l₁ y m).map _) hnd

theorem yearsOf_eq {l₁ l₂ : List LocalPost} (h : Perm l₁ l₂) (rev : Bool) :
    yearsOf l₁ rev = yearsOf l₂ rev :=
  natSorted_dedup_eq rev (h.map _)

theorem monthsOf_eq {l₁ l₂ : List LocalPost} (h : Perm l₁ l₂) (y : Nat) (rev : Bool) :
    monthsOf l₁ y rev = monthsOf l₂ y rev :=
  natSorted_dedup_eq rev ((h.filter _).map _)

/-- The archives list is scan-order independent; the month bound makes the
pair encoding injective (tm_mon is always below 13). -/
theorem archivesOf_eq {l₁ l₂ : List LocalPost} (h : Perm l₁ l₂)
    (hm : ∀ p ∈ l₁, p.month < 13) (rev : Bool) :
    archivesOf l₁ rev = archivesOf l₂ rev := by
  apply pySorted_perm_eq _ rev (h.map (fun p => (p.year, p.month))).dedup
  apply List.Nodup.map_on ?_ (List.nodup_dedup _)
  intro x hx y hy hxy
  obtain ⟨px, hpx, hpx2⟩ := List.mem_map.mp (List.mem_dedup.mp hx)
  obtain ⟨py, hpy, hpy2⟩ := List.mem_map.mp (List.mem_dedup.mp hy)
  obtain ⟨x1, x2⟩ := x
  obtain ⟨y1, y2⟩ := y
  have hx13 : x2 < 13 := by
    have h1 := hm px hpx
    have h2 : px.month = x2 := congrArg Prod.snd hpx2
    omega
  have hy13 : y2 < 13 := by
    have h1 := hm py hpy
    have h2 : py.month = y2 := congrArg Prod.snd hpy2
    omega
  have hnat : x1 * 13 + x2 = y1 * 13 + y2 := by
    have h0 : ((x1 : Int) * 13 + (x2 : Int)) = ((y1 : Int) * 13 + (y2 : Int)) := hxy
    exact_mod_cast h0
  have hxy2 : x1 = y1 ∧ x2 = y2 := by omega
  simp [hxy2.1, hxy2.2]

theorem pagesPerMonth_eq {l₁ l₂ : List LocalPost} (h : Perm l₁ l₂)
    (pp y m : Nat) : pagesPerMonth l₁ pp y m = pagesPerMonth l₂ pp y m := by
  unfold pagesPerMonth
  rw [(bucket_perm h y m).length_eq]

theorem monthPage_eq (o : IndexOptions) {l₁ l₂ : List LocalPost} (h : Perm l₁ l₂)
    (archives : List (Nat × Nat)) (year month postsPage pagesMonth page : Nat)
    (chunk : List LocalPost) :
    monthPage o l₁ archives year month postsPage pagesMonth page chunk =
      monthPage o l₂ archives year month postsPage pagesMonth page chunk := by
  unfold monthPage
  simp only [pagesPerMonth_eq h]

theorem saveMonth_eq (o : IndexOptions) {l₁ l₂ : List LocalPost} (h : Perm l₁ l₂)
    (hnd : (l₁.map (fun p => p.date)).Nodup)
    (archives : List (Nat × Nat)) (year month : Nat) :
    saveMonth o l₁ archives year month = saveMonth o l₂ archives year month := by
  unfold saveMonth
  simp only [bucket_sorted_eq h hnd o.reverse_month, pagesPerMonth_eq h,
    monthPage_eq o h]

theorem saveYear_eq (o : IndexOptions) {l₁ l₂ : List LocalPost} (h : Perm l₁ l₂)
    (hnd : (l₁.map (fun p => p.date)).Nodup)
    (archives : List (Nat × Nat)) (year : Nat) :
    saveYear o l₁ archives year = saveYear o l₂ archives year := by
  have hlen : ∀ y m, (bucket l₁ y m).length = (bucket l₂ y m).length :=
    fun y m => (bucket_perm h y m).length_eq
  unfold saveYear
  simp only [monthsOf_eq h, saveMonth_eq o h hnd, hlen]

set_option maxRecDepth 4000 in
/-- Counterexample to claim C3: the top index footer embeds the formatted
wall-clock generation time, so two consecutive rebuilds over the unchanged
post set produce different bytes whenever the clock string moved on. -/
theorem C3_counterexample :
    save_index c3opts [cxLocalA] "01/01/25 00:00:00" ≠
      save_index c3opts [cxLocalA] "01/01/25 00:00:01" := by decide

/-- Amended claim C3: for an unchanged set of persisted posts with pairwise
distinct dates (and months in the calendar range), rebuilding at the same
formatted generation time produces byte-identical output files regardless of
the order in which the rescanned posts are enumerated; the only
time-dependent bytes are the generation timestamp in the top index footer. -/
theorem C3_amended (o : IndexOptions) (now : String) (l₁ l₂ : List LocalPost)
    (hperm : Perm l₁ l₂) (hdates : (l₁.map (fun p => p.date)).Nodup)
    (hmon : ∀ p ∈ l₁, p.month < 13) :
    save_index o l₁ now = save_index o l₂ now := by
  unfold save_index
  simp only [archivesOf_eq hperm hmon, yearsOf_eq hperm, saveYear_eq o hperm hdates]

/-- Witness for the amended claim C3 on two scan orders of the same two
posts. -/
theorem C3_amended_witness :
    save_index c3opts [cxLocalA, cxLocalB] "t" =
      save_index c3opts [cxLocalB, cxLocalA] "t" :=
  C3_amended c3opts "t" [cxLocalA, cxLocalB] [cxLocalB, cxLocalA]
    (by decide) (by decide) (by decide)

end TumblrUtils
